import Mathlib

/-!
Shallow embedding of the `passkey_controller` NEAR contract
(`src/passkey_controller/src/lib.rs`) together with theorems settling the
frozen specification claims about it.

Account ids and public keys are opaque identities, modelled as strings.
`u128` amounts and gas values are modelled as `Nat` (the contract performs
no arithmetic on them beyond comparison with zero, so overflow is not in
play).  Host panics (`assert!`, `assert_eq!`, `panic!`) abort the call and
revert all state, which we model with `Except`: an `.error` result carries
no post-state and no scheduled promise.
-/

namespace PasskeyController

/-- `AccountId` from `near_sdk`: an opaque account identity. -/
abbrev AccountId := String

/-- `PublicKey` from `near_sdk`: an opaque credential (passkey) identity. -/
abbrev PublicKey := String

/-- `ActionType` enum (lib.rs lines 20-29): the eight operation kinds. -/
inductive ActionType where
  | CreateAccount
  | DeployContract
  | FunctionCall
  | Transfer
  | Stake
  | AddKey
  | DeleteKey
  | DeleteAccount
deriving DecidableEq, Repr

/-- `SerializableAction` struct (lib.rs lines 35-59): one descriptor with
per-kind optional fields.  `U128` fields become `Nat`, `Base64VecU8`
becomes `List Nat` (opaque bytes), `Gas` becomes `Nat`. -/
structure SerializableAction where
  action_type : ActionType
  receiver_id : Option AccountId := none
  method_name : Option String := none
  args : Option (List Nat) := none
  deposit : Option Nat := none
  gas : Option Nat := none
  amount : Option Nat := none
  public_key : Option PublicKey := none
  allowance : Option Nat := none
  method_names : Option (List String) := none
  code : Option (List Nat) := none
  stake : Option Nat := none
  beneficiary_id : Option AccountId := none
  initial_deposit_for_new_account : Option Nat := none
  public_key_for_new_account : Option PublicKey := none
deriving DecidableEq, Repr

/-- `near_sdk::Allowance`: either unlimited or limited to a (nonzero)
amount. -/
inductive Allowance where
  | Unlimited
  | Limited (amount : Nat)
deriving DecidableEq, Repr

/-- `SerializableAction::get_action_allowance` (lib.rs lines 62-69):
`Some(a)` with `a > 0` gives `Limited(a)`; `None` or `Some(0)` give
`Unlimited`. -/
def SerializableAction.get_action_allowance (a : SerializableAction) : Allowance :=
  match a.allowance with
  | some allowance_amount =>
      if allowance_amount > 0 then Allowance.Limited allowance_amount
      else Allowance.Unlimited
  | none => Allowance.Unlimited

/-- Error taxonomy of the contract's panics: authorization failures,
unregistered-credential failures and missing-descriptor-field failures.
Each carries the panic message from the source. -/
inductive ExecError where
  | AuthorizationError (msg : String)
  | NotRegisteredError (msg : String)
  | MissingFieldError (msg : String)
deriving DecidableEq, Repr

/-- Equality of call results is decidable, so witnesses can be checked by
evaluation. -/
instance {ε α : Type} [DecidableEq ε] [DecidableEq α] : DecidableEq (Except ε α) := fun x y =>
  match x, y with
  | .ok a, .ok b =>
      if h : a = b then .isTrue (by rw [h])
      else .isFalse (by intro hc; cases hc; exact h rfl)
  | .ok _, .error _ => .isFalse (by intro hc; cases hc)
  | .error _, .ok _ => .isFalse (by intro hc; cases hc)
  | .error e, .error f =>
      if h : e = f then .isTrue (by rw [h])
      else .isFalse (by intro hc; cases hc; exact h rfl)

/-- Whether an error is an `AuthorizationError`. -/
def ExecError.isAuthorizationError : ExecError → Bool
  | .AuthorizationError _ => true
  | _ => false

/-- Whether an error is a `NotRegisteredError`. -/
def ExecError.isNotRegisteredError : ExecError → Bool
  | .NotRegisteredError _ => true
  | _ => false

/-- Whether an error is a `MissingFieldError`. -/
def ExecError.isMissingFieldError : ExecError → Bool
  | .MissingFieldError _ => true
  | _ => false

/-- Whether a call result is a panic (so the host reverts the call and no
promise is scheduled). -/
def isError {α : Type} : Except ExecError α → Bool
  | .error _ => true
  | .ok _ => false

/-- Contract state (lib.rs lines 74-78): trusted relayer id, owner id and
the registered-passkey set.  The `IterableSet` is modelled as a
duplicate-free list. -/
structure State where
  trusted_relayer_account_id : AccountId
  owner_id : AccountId
  registered_passkey_pks : List PublicKey
deriving DecidableEq, Repr

/-- Ambient per-call execution context (`near_sdk::env`): calling account,
transaction signer account, transaction-signing public key, and this
contract's own account id. -/
structure Ctx where
  predecessor_account_id : AccountId
  signer_account_id : AccountId
  signer_account_pk : PublicKey
  current_account_id : AccountId
deriving DecidableEq, Repr

/-- `IterableSet::insert`: returns the new set and `true` iff the element
was newly inserted. -/
def setInsert (s : List PublicKey) (k : PublicKey) : List PublicKey × Bool :=
  if k ∈ s then (s, false) else (s ++ [k], true)

/-- `IterableSet::remove`: returns the new set and `true` iff the element
was present (and is now removed). -/
def setRemove (s : List PublicKey) (k : PublicKey) : List PublicKey × Bool :=
  if k ∈ s then (s.erase k, true) else (s, false)

/-- `PasskeyController::new` (lib.rs lines 83-100): build the initial
state, optionally seeding the passkey set. -/
def new (trusted_relayer_account_id owner_id : AccountId)
    (initial_passkey_pks : Option (List PublicKey)) : State :=
  let pk_set : List PublicKey :=
    match initial_passkey_pks with
    | some keys => keys.foldl (fun s k => (setInsert s k).1) []
    | none => []
  { trusted_relayer_account_id, owner_id, registered_passkey_pks := pk_set }

/-- `add_passkey_pk` (lib.rs lines 119-126): caller must be the trusted
relayer; inserts the key, returning whether it was newly inserted. -/
def add_passkey_pk (self : State) (ctx : Ctx) (passkey_pk : PublicKey) :
    Except ExecError (State × Bool) :=
  if ctx.predecessor_account_id = self.trusted_relayer_account_id then
    .ok ({ self with
            registered_passkey_pks := (setInsert self.registered_passkey_pks passkey_pk).1 },
         (setInsert self.registered_passkey_pks passkey_pk).2)
  else
    .error (.AuthorizationError "Only trusted relayer can add passkey PKs")

/-- `remove_passkey_pk` (lib.rs lines 128-135): caller must be the trusted
relayer; removes the key, returning whether it was present. -/
def remove_passkey_pk (self : State) (ctx : Ctx) (passkey_pk : PublicKey) :
    Except ExecError (State × Bool) :=
  if ctx.predecessor_account_id = self.trusted_relayer_account_id then
    .ok ({ self with
            registered_passkey_pks := (setRemove self.registered_passkey_pks passkey_pk).1 },
         (setRemove self.registered_passkey_pks passkey_pk).2)
  else
    .error (.AuthorizationError "Only trusted relayer can remove passkey PKs")

/-- `is_passkey_pk_registered` (lib.rs lines 137-139): pure membership
query, no authorization. -/
def is_passkey_pk_registered (self : State) (passkey_pk : PublicKey) : Bool :=
  passkey_pk ∈ self.registered_passkey_pks

/-- Host revert semantics: applying a call result to the pre-state.  A
successful call commits the returned state; a panic (error) reverts to the
pre-state. -/
def applyResult {α : Type} (st : State) : Except ExecError (State × α) → State
  | .ok (st', _) => st'
  | .error _ => st

/-- One primitive promise action scheduled onto the operation sink
(`near_sdk::Promise` combinators used by the contract). -/
inductive PromiseAction where
  | createAccount
  | transfer (amount : Nat)
  | addFullAccessKey (pk : PublicKey)
  | deployContract (code : List Nat)
  | functionCall (method_name : String) (args : List Nat) (deposit : Nat) (gas : Nat)
  | stake (amount : Nat) (pk : PublicKey)
  | addAccessKeyAllowance (pk : PublicKey) (allowance : Allowance)
      (receiver_id : AccountId) (method_names : String)
  | deleteKey (pk : PublicKey)
  | deleteAccount (beneficiary_id : AccountId)
deriving DecidableEq, Repr

/-- A `Promise`: a target account together with the primitive actions
chained onto it, in the order the code chained them. -/
structure Promise where
  target : AccountId
  actions : List PromiseAction
deriving DecidableEq, Repr

/-- Target resolution of `execute_direct_actions` (lib.rs lines 163-200):
`FunctionCall` and `Transfer` go to the explicit `receiver_id` (panicking
if absent); every other kind targets the signer's own account. -/
def direct_target (signer_account_id : AccountId) (action_data : SerializableAction) :
    Except ExecError AccountId :=
  match action_data.action_type with
  | .FunctionCall | .Transfer =>
      match action_data.receiver_id with
      | some r => .ok r
      | none => .error (.MissingFieldError "receiver_id is required for FunctionCall/Transfer")
  | .CreateAccount => .ok signer_account_id
  | .DeployContract => .ok signer_account_id
  | .Stake => .ok signer_account_id
  | .AddKey => .ok signer_account_id
  | .DeleteKey => .ok signer_account_id
  | .DeleteAccount => .ok signer_account_id

/-- `CreateAccount` promise-chain construction shared verbatim by the two
entry points (lib.rs lines 205-218 and 334-345): create the account, then
transfer the initial deposit when present and positive, then grant the
new-account key full access when present. -/
def createAccountActions (action_data : SerializableAction) : List PromiseAction :=
  let acts := [PromiseAction.createAccount]
  let acts :=
    match action_data.initial_deposit_for_new_account with
    | some deposit => if deposit > 0 then acts ++ [.transfer deposit] else acts
    | none => acts
  match action_data.public_key_for_new_account with
  | some pk => acts ++ [.addFullAccessKey pk]
  | none => acts

/-- Per-kind promise construction of `execute_direct_actions` (lib.rs
lines 204-292): missing required fields panic in the source's evaluation
order; optional fields default (`method_name` to `""`, `args` and `code`
to empty bytes, `deposit` to `0`, `gas` to 5 TGas, `method_names` to the
empty list, joined with `","`). -/
def direct_promise_actions (action_data : SerializableAction) :
    Except ExecError (List PromiseAction) :=
  match action_data.action_type with
  | .CreateAccount =>
      match action_data.receiver_id with
      | some _ => .ok (createAccountActions action_data)
      | none => .error (.MissingFieldError "receiver_id (new account_id) is required for CreateAccount")
  | .DeployContract =>
      .ok [.deployContract (action_data.code.getD [])]
  | .FunctionCall =>
      .ok [.functionCall (action_data.method_name.getD "")
        (action_data.args.getD [])
        (action_data.deposit.getD 0)
        (action_data.gas.getD 5000000000000)]
  | .Transfer =>
      match action_data.amount with
      | some amount => .ok [.transfer amount]
      | none => .error (.MissingFieldError "amount is required for Transfer")
  | .Stake =>
      match action_data.stake with
      | some stakeAmount =>
          match action_data.public_key with
          | some pk => .ok [.stake stakeAmount pk]
          | none => .error (.MissingFieldError "validator public_key is required for Stake")
      | none => .error (.MissingFieldError "stake amount is required for Stake")
  | .AddKey =>
      match action_data.public_key with
      | some pk =>
          match action_data.receiver_id with
          | some r => .ok [.addAccessKeyAllowance pk action_data.get_action_allowance r
              (String.intercalate "," (action_data.method_names.getD []))]
          | none => .error (.MissingFieldError "receiver_id for allowance scope is required for AddKey")
      | none => .error (.MissingFieldError "public_key is required for AddKey")
  | .DeleteKey =>
      match action_data.public_key with
      | some pk => .ok [.deleteKey pk]
      | none => .error (.MissingFieldError "public_key is required for DeleteKey")
  | .DeleteAccount =>
      match action_data.beneficiary_id with
      | some b => .ok [.deleteAccount b]
      | none => .error (.MissingFieldError "beneficiary_id is required for DeleteAccount")

/-- Validation and promise construction of `execute_direct_actions` after
its authorization gate: resolve the target, then build the action chain. -/
def direct_dispatch (signer_account_id : AccountId) (action_data : SerializableAction) :
    Except ExecError Promise :=
  match direct_target signer_account_id action_data with
  | .error e => .error e
  | .ok target =>
      match direct_promise_actions action_data with
      | .error e => .error e
      | .ok actions => .ok { target, actions }

/-- `execute_direct_actions` (lib.rs lines 141-300): the transaction
signer's public key must be a registered passkey
(`ERR_SIGNER_PK_NOT_REGISTERED_AS_PASSKEY` otherwise); contract state is
never written, only a promise is scheduled. -/
def execute_direct_actions (self : State) (ctx : Ctx)
    (action_to_execute : SerializableAction) :
    Except ExecError (State × Promise) :=
  if ctx.signer_account_pk ∈ self.registered_passkey_pks then
    (direct_dispatch ctx.signer_account_id action_to_execute).map (fun p => (self, p))
  else
    .error (.NotRegisteredError "ERR_SIGNER_PK_NOT_REGISTERED_AS_PASSKEY")

/-- Target resolution of `execute_delegated_actions` (lib.rs lines
319-329): `FunctionCall`, `Transfer` and `CreateAccount` go to the
explicit `receiver_id` (panicking if absent); every other kind targets the
contract's own account. -/
def delegated_target (current_account_id : AccountId) (action_data : SerializableAction) :
    Except ExecError AccountId :=
  match action_data.action_type with
  | .FunctionCall | .Transfer =>
      match action_data.receiver_id with
      | some r => .ok r
      | none => .error (.MissingFieldError "receiver_id is required for FunctionCall/Transfer")
  | .CreateAccount =>
      match action_data.receiver_id with
      | some r => .ok r
      | none => .error (.MissingFieldError "receiver_id is required for CreateAccount (as the new account_id)")
  | .DeployContract | .Stake | .AddKey | .DeleteKey | .DeleteAccount =>
      .ok current_account_id

/-- Per-kind promise construction of `execute_delegated_actions` (lib.rs
lines 333-380).  It differs from the direct one in three places: a missing
`gas` defaults to `0` (not 5 TGas), `CreateAccount` has no second
`receiver_id` check (the target resolution already required it), and the
Stake key panic message omits the word `validator`. -/
def delegated_promise_actions (action_data : SerializableAction) :
    Except ExecError (List PromiseAction) :=
  match action_data.action_type with
  | .CreateAccount =>
      .ok (createAccountActions action_data)
  | .DeployContract =>
      .ok [.deployContract (action_data.code.getD [])]
  | .FunctionCall =>
      .ok [.functionCall (action_data.method_name.getD "")
        (action_data.args.getD [])
        (action_data.deposit.getD 0)
        (action_data.gas.getD 0)]
  | .Transfer =>
      match action_data.amount with
      | some amount => .ok [.transfer amount]
      | none => .error (.MissingFieldError "amount is required for Transfer")
  | .Stake =>
      match action_data.stake with
      | some stakeAmount =>
          match action_data.public_key with
          | some pk => .ok [.stake stakeAmount pk]
          | none => .error (.MissingFieldError "public_key is required for Stake")
      | none => .error (.MissingFieldError "stake amount is required for Stake")
  | .AddKey =>
      match action_data.public_key with
      | some pk =>
          match action_data.receiver_id with
          | some r => .ok [.addAccessKeyAllowance pk action_data.get_action_allowance r
              (String.intercalate "," (action_data.method_names.getD []))]
          | none => .error (.MissingFieldError "receiver_id for allowance scope is required for AddKey")
      | none => .error (.MissingFieldError "public_key is required for AddKey")
  | .DeleteKey =>
      match action_data.public_key with
      | some pk => .ok [.deleteKey pk]
      | none => .error (.MissingFieldError "public_key is required for DeleteKey")
  | .DeleteAccount =>
      match action_data.beneficiary_id with
      | some b => .ok [.deleteAccount b]
      | none => .error (.MissingFieldError "beneficiary_id is required for DeleteAccount")

/-- Validation and promise construction of `execute_delegated_actions`
after its two authorization gates. -/
def delegated_dispatch (current_account_id : AccountId) (action_data : SerializableAction) :
    Except ExecError Promise :=
  match delegated_target current_account_id action_data with
  | .error e => .error e
  | .ok target =>
      match delegated_promise_actions action_data with
      | .error e => .error e
      | .ok actions => .ok { target, actions }

/-- `execute_delegated_actions` (lib.rs lines 302-382): the caller must be
the trusted relayer and the supplied passkey must be registered; contract
state is never written, only a promise is scheduled. -/
def execute_delegated_actions (self : State) (ctx : Ctx)
    (passkey_pk_used : PublicKey) (action_to_execute : SerializableAction) :
    Except ExecError (State × Promise) :=
  if ctx.predecessor_account_id = self.trusted_relayer_account_id then
    if passkey_pk_used ∈ self.registered_passkey_pks then
      (delegated_dispatch ctx.current_account_id action_to_execute).map (fun p => (self, p))
    else
      .error (.NotRegisteredError "Passkey PK not registered")
  else
    .error (.AuthorizationError "Only trusted relayer can execute actions")

/-- All-or-nothing sequencing of per-descriptor dispatch: the first
validation failure aborts the whole batch, discarding every promise. -/
def dispatchAll (f : SerializableAction → Except ExecError Promise) :
    List SerializableAction → Except ExecError (List Promise)
  | [] => .ok []
  | a :: rest =>
      match f a with
      | .error e => .error e
      | .ok p =>
          match dispatchAll f rest with
          | .error e => .error e
          | .ok ps => .ok (p :: ps)

/-- Modelled from the spec: the multi-descriptor batch entry point
`executeDelegatedActions(credential, descriptors[])` described in the spec
is absent from the sources under `src/` (only the single-descriptor
`execute_delegated_actions` is there).  Per the spec it carries the same
two authorization gates as the single-descriptor form, iterates the
descriptors resolving targets under delegated rules, and aborts the entire
call on the first validation failure so that no earlier operation of the
same call survives. -/
def execute_delegated_actions_batch (self : State) (ctx : Ctx)
    (passkey_pk_used : PublicKey) (descriptors : List SerializableAction) :
    Except ExecError (State × List Promise) :=
  if ctx.predecessor_account_id = self.trusted_relayer_account_id then
    if passkey_pk_used ∈ self.registered_passkey_pks then
      (dispatchAll (delegated_dispatch ctx.current_account_id) descriptors).map
        (fun ps => (self, ps))
    else
      .error (.NotRegisteredError "Passkey PK not registered")
  else
    .error (.AuthorizationError "Only trusted relayer can execute actions")

/-! Concrete fixtures used by witnesses and counterexamples. -/

/-- A concrete contract state: relayer `relayer`, owner `owner`, passkeys
`pkA` and `pkB` registered. -/
def stAB : State :=
  { trusted_relayer_account_id := "relayer"
    owner_id := "owner"
    registered_passkey_pks := ["pkA", "pkB"] }

/-- A call context whose caller is the trusted relayer of `stAB`. -/
def ctxRelayer : Ctx :=
  { predecessor_account_id := "relayer"
    signer_account_id := "relayer"
    signer_account_pk := "relayerPk"
    current_account_id := "contract" }

/-- A call context for a direct call signed with the registered passkey
`pkA` from account `derp`. -/
def ctxDerp : Ctx :=
  { predecessor_account_id := "derp"
    signer_account_id := "derp"
    signer_account_pk := "pkA"
    current_account_id := "contract" }

/-- A call context whose caller is the trusted relayer of `stAB` and
whose transaction signer holds the registered passkey `pkA`, so both
authorization gates pass. -/
def ctxBoth : Ctx :=
  { predecessor_account_id := "relayer"
    signer_account_id := "derp"
    signer_account_pk := "pkA"
    current_account_id := "contract" }

/-- A call context for a caller that is neither the relayer nor a holder
of a registered passkey. -/
def ctxMallory : Ctx :=
  { predecessor_account_id := "mallory"
    signer_account_id := "mallory"
    signer_account_pk := "pkMallory"
    current_account_id := "contract" }

/-- A Transfer descriptor with explicit target `x.near` and amount `100`. -/
def transfer100 : SerializableAction :=
  { action_type := .Transfer, receiver_id := some "x.near", amount := some 100 }

/-- A Transfer descriptor with explicit target `x.near` and amount `0`. -/
def transfer0 : SerializableAction :=
  { action_type := .Transfer, receiver_id := some "x.near", amount := some 0 }

/-- A Transfer descriptor missing its amount. -/
def transferNoAmount : SerializableAction :=
  { action_type := .Transfer, receiver_id := some "x.near" }

/-- A FunctionCall descriptor with every optional field absent (no method
name, no argument bytes, no deposit, no gas). -/
def fcallBare : SerializableAction :=
  { action_type := .FunctionCall, receiver_id := some "x.near" }

/-- A FunctionCall descriptor with a method name `m` but absent argument
bytes. -/
def fcallNoArgs : SerializableAction :=
  { action_type := .FunctionCall, receiver_id := some "x.near", method_name := some "m" }

/-- A FunctionCall descriptor with a deposit of 5 but an absent
compute-budget (gas) field. -/
def fcallDeposit5 : SerializableAction :=
  { action_type := .FunctionCall, receiver_id := some "x.near", deposit := some 5 }

/-- A DeployContract descriptor with no code bytes. -/
def deployBare : SerializableAction :=
  { action_type := .DeployContract }

/-! Characterization lemmas about the dispatch pipeline. -/

/-- Every failure of direct target resolution is a missing-field error. -/
theorem direct_target_error_missing (sid : AccountId) (a : SerializableAction)
    (e : ExecError) (h : direct_target sid a = .error e) :
    e.isMissingFieldError = true := by
  obtain ⟨ty, rid, _, _, _, _, _, _, _, _, _, _, _, _, _⟩ := a
  cases ty <;> cases rid <;>
    simp [direct_target] at h <;>
    simp [← h, ExecError.isMissingFieldError]

/-- Every failure of direct promise construction is a missing-field
error. -/
theorem direct_promise_actions_error_missing (a : SerializableAction)
    (e : ExecError) (h : direct_promise_actions a = .error e) :
    e.isMissingFieldError = true := by
  obtain ⟨ty, rid, _, _, _, _, amt, pk, _, _, _, stk, ben, _, _⟩ := a
  cases ty <;> cases rid <;> cases amt <;> cases pk <;> cases stk <;> cases ben <;>
    simp [direct_promise_actions] at h <;>
    simp [← h, ExecError.isMissingFieldError]

/-- Every failure of the direct dispatch pipeline is a missing-field
error. -/
theorem direct_dispatch_error_missing (sid : AccountId) (a : SerializableAction)
    (e : ExecError) (h : direct_dispatch sid a = .error e) :
    e.isMissingFieldError = true := by
  unfold direct_dispatch at h
  cases ht : direct_target sid a with
  | error e1 =>
      rw [ht] at h
      simp at h
      exact h ▸ direct_target_error_missing sid a e1 ht
  | ok t =>
      rw [ht] at h
      cases hp : direct_promise_actions a with
      | error e2 =>
          rw [hp] at h
          simp at h
          exact h ▸ direct_promise_actions_error_missing a e2 hp
      | ok acts =>
          rw [hp] at h
          simp at h

/-- A successful direct dispatch pins down both the resolved target and
the constructed action chain. -/
theorem direct_dispatch_ok (sid : AccountId) (a : SerializableAction)
    (p : Promise) (h : direct_dispatch sid a = .ok p) :
    direct_target sid a = .ok p.target ∧
    direct_promise_actions a = .ok p.actions := by
  unfold direct_dispatch at h
  cases ht : direct_target sid a with
  | error e1 => rw [ht] at h; simp at h
  | ok t =>
      rw [ht] at h
      cases hp : direct_promise_actions a with
      | error e2 => rw [hp] at h; simp at h
      | ok acts =>
          rw [hp] at h
          simp at h
          simp [← h]

/-- Every failure of delegated target resolution is a missing-field
error. -/
theorem delegated_target_error_missing (cur : AccountId) (a : SerializableAction)
    (e : ExecError) (h : delegated_target cur a = .error e) :
    e.isMissingFieldError = true := by
  obtain ⟨ty, rid, _, _, _, _, _, _, _, _, _, _, _, _, _⟩ := a
  cases ty <;> cases rid <;>
    simp [delegated_target] at h <;>
    simp [← h, ExecError.isMissingFieldError]

/-- Every failure of delegated promise construction is a missing-field
error. -/
theorem delegated_promise_actions_error_missing (a : SerializableAction)
    (e : ExecError) (h : delegated_promise_actions a = .error e) :
    e.isMissingFieldError = true := by
  obtain ⟨ty, rid, _, _, _, _, amt, pk, _, _, _, stk, ben, _, _⟩ := a
  cases ty <;> cases rid <;> cases amt <;> cases pk <;> cases stk <;> cases ben <;>
    simp [delegated_promise_actions] at h <;>
    simp [← h, ExecError.isMissingFieldError]

/-- Every failure of the delegated dispatch pipeline is a missing-field
error. -/
theorem delegated_dispatch_error_missing (cur : AccountId) (a : SerializableAction)
    (e : ExecError) (h : delegated_dispatch cur a = .error e) :
    e.isMissingFieldError = true := by
  unfold delegated_dispatch at h
  cases ht : delegated_target cur a with
  | error e1 =>
      rw [ht] at h
      simp at h
      exact h ▸ delegated_target_error_missing cur a e1 ht
  | ok t =>
      rw [ht] at h
      cases hp : delegated_promise_actions a with
      | error e2 =>
          rw [hp] at h
          simp at h
          exact h ▸ delegated_promise_actions_error_missing a e2 hp
      | ok acts =>
          rw [hp] at h
          simp at h

/-- A successful delegated dispatch pins down both the resolved target
and the constructed action chain. -/
theorem delegated_dispatch_ok (cur : AccountId) (a : SerializableAction)
    (p : Promise) (h : delegated_dispatch cur a = .ok p) :
    delegated_target cur a = .ok p.target ∧
    delegated_promise_actions a = .ok p.actions := by
  unfold delegated_dispatch at h
  cases ht : delegated_target cur a with
  | error e1 => rw [ht] at h; simp at h
  | ok t =>
      rw [ht] at h
      cases hp : delegated_promise_actions a with
      | error e2 => rw [hp] at h; simp at h
      | ok acts =>
          rw [hp] at h
          simp at h
          simp [← h]

/-- C1: a caller other than the trusted relayer gets an
`AuthorizationError` from `add_passkey_pk`, `remove_passkey_pk` and
`execute_delegated_actions`, and the contract state is unchanged; when the
caller is the trusted relayer the authorization check passes: the two
registry mutators succeed and the delegated entry point never reports an
authorization failure. -/
theorem relayer_authorization_gate (st : State) (ctxO ctxR : Ctx)
    (pk : PublicKey) (a : SerializableAction)
    (hO : ctxO.predecessor_account_id ≠ st.trusted_relayer_account_id)
    (hR : ctxR.predecessor_account_id = st.trusted_relayer_account_id) :
    add_passkey_pk st ctxO pk =
      .error (.AuthorizationError "Only trusted relayer can add passkey PKs") ∧
    applyResult st (add_passkey_pk st ctxO pk) = st ∧
    remove_passkey_pk st ctxO pk =
      .error (.AuthorizationError "Only trusted relayer can remove passkey PKs") ∧
    applyResult st (remove_passkey_pk st ctxO pk) = st ∧
    execute_delegated_actions st ctxO pk a =
      .error (.AuthorizationError "Only trusted relayer can execute actions") ∧
    applyResult st (execute_delegated_actions st ctxO pk a) = st ∧
    isError (add_passkey_pk st ctxR pk) = false ∧
    isError (remove_passkey_pk st ctxR pk) = false ∧
    (∀ e, execute_delegated_actions st ctxR pk a = .error e →
      e.isAuthorizationError = false) := by
  refine ⟨?_, ?_, ?_, ?_, ?_, ?_, ?_, ?_, ?_⟩
  · simp [add_passkey_pk, hO]
  · simp [applyResult, add_passkey_pk, hO]
  · simp [remove_passkey_pk, hO]
  · simp [applyResult, remove_passkey_pk, hO]
  · simp [execute_delegated_actions, hO]
  · simp [applyResult, execute_delegated_actions, hO]
  · simp [add_passkey_pk, hR, isError]
  · simp [remove_passkey_pk, hR, isError]
  · intro e he
    simp only [execute_delegated_actions, hR, if_true] at he
    by_cases hpk : pk ∈ st.registered_passkey_pks
    · simp only [hpk, if_true] at he
      cases hd : delegated_dispatch ctxR.current_account_id a with
      | error e1 =>
          rw [hd] at he
          simp [Except.map] at he
          have hm := delegated_dispatch_error_missing ctxR.current_account_id a e1 hd
          subst he
          cases e1 <;> simp_all [ExecError.isAuthorizationError, ExecError.isMissingFieldError]
      | ok p =>
          rw [hd] at he
          simp [Except.map] at he
    · simp only [hpk, if_false] at he
      simp at he
      simp [← he, ExecError.isAuthorizationError]

/-- C1 witness: at a concrete state, the non-relayer `mallory` is
rejected by all three entry points with the state unchanged, while the
relayer passes the gate. -/
theorem relayer_authorization_gate_witness :
    add_passkey_pk stAB ctxMallory "pkC" =
      .error (.AuthorizationError "Only trusted relayer can add passkey PKs") ∧
    applyResult stAB (add_passkey_pk stAB ctxMallory "pkC") = stAB ∧
    remove_passkey_pk stAB ctxMallory "pkA" =
      .error (.AuthorizationError "Only trusted relayer can remove passkey PKs") ∧
    applyResult stAB (remove_passkey_pk stAB ctxMallory "pkA") = stAB ∧
    execute_delegated_actions stAB ctxMallory "pkA" transfer100 =
      .error (.AuthorizationError "Only trusted relayer can execute actions") ∧
    applyResult stAB (execute_delegated_actions stAB ctxMallory "pkA" transfer100) = stAB ∧
    isError (add_passkey_pk stAB ctxRelayer "pkC") = false ∧
    isError (remove_passkey_pk stAB ctxRelayer "pkC") = false ∧
    ExecError.isAuthorizationError (.MissingFieldError "amount is required for Transfer") = false := by
  have h1 := relayer_authorization_gate stAB ctxMallory ctxRelayer "pkC" transfer100
    (by decide) (by decide)
  have h2 := relayer_authorization_gate stAB ctxMallory ctxRelayer "pkA" transfer100
    (by decide) (by decide)
  have h3 := relayer_authorization_gate stAB ctxMallory ctxRelayer "pkA" transferNoAmount
    (by decide) (by decide)
  exact ⟨h1.1, h1.2.1, h2.2.2.1, h2.2.2.2.1, h2.2.2.2.2.1, h2.2.2.2.2.2.1,
    h1.2.2.2.2.2.2.1, h1.2.2.2.2.2.2.2.1,
    h3.2.2.2.2.2.2.2.2 _ (by decide)⟩

/-- C2: `execute_direct_actions` raises `NotRegisteredError` exactly when
the transaction-signing public key is not a registered passkey (the
calling account id plays no part); once the signer key is registered, any
remaining failure is a validation (missing-field) error, never a
registration one, and an error result schedules no operation. -/
theorem direct_authorization_gate (st : State) (ctx : Ctx) (a : SerializableAction) :
    (ctx.signer_account_pk ∉ st.registered_passkey_pks ↔
      execute_direct_actions st ctx a =
        .error (.NotRegisteredError "ERR_SIGNER_PK_NOT_REGISTERED_AS_PASSKEY")) ∧
    (∀ e, execute_direct_actions st ctx a = .error e →
      ctx.signer_account_pk ∈ st.registered_passkey_pks →
      e.isMissingFieldError = true) := by
  by_cases hm : ctx.signer_account_pk ∈ st.registered_passkey_pks
  · constructor
    · rw [execute_direct_actions, if_pos hm]
      constructor
      · intro hc; exact absurd hm hc
      · intro he
        cases hd : direct_dispatch ctx.signer_account_id a with
        | error e1 =>
            rw [hd] at he
            simp [Except.map] at he
            have := direct_dispatch_error_missing ctx.signer_account_id a e1 hd
            rw [he] at this
            simp [ExecError.isMissingFieldError] at this
        | ok p =>
            rw [hd] at he
            simp [Except.map] at he
    · intro e he _
      simp only [execute_direct_actions, hm, if_true] at he
      cases hd : direct_dispatch ctx.signer_account_id a with
      | error e1 =>
          rw [hd] at he
          simp [Except.map] at he
          exact he ▸ direct_dispatch_error_missing ctx.signer_account_id a e1 hd
      | ok p =>
          rw [hd] at he
          simp [Except.map] at he
  · constructor
    · simp [execute_direct_actions, hm]
    · intro e he hmem; exact absurd hmem hm

/-- C2 witness: with the unregistered signer key `pkMallory` the direct
entry point raises exactly the registration error, and with the
registered key `pkA` a Transfer missing its amount fails with a
missing-field error. -/
theorem direct_authorization_gate_witness :
    execute_direct_actions stAB ctxMallory transfer100 =
      .error (.NotRegisteredError "ERR_SIGNER_PK_NOT_REGISTERED_AS_PASSKEY") ∧
    ExecError.isMissingFieldError (.MissingFieldError "amount is required for Transfer") = true := by
  refine ⟨?_, ?_⟩
  · exact (direct_authorization_gate stAB ctxMallory transfer100).1.mp (by decide)
  · exact (direct_authorization_gate stAB ctxDerp transferNoAmount).2 _ (by decide) (by decide)

/-- C3: the capability allowance computed for AddKey grants is Unlimited
when the allowance field is absent or zero, and Limited(N) when it is a
positive N. -/
theorem addkey_allowance_zero_means_unlimited (a : SerializableAction) :
    (a.allowance = none → a.get_action_allowance = .Unlimited) ∧
    (a.allowance = some 0 → a.get_action_allowance = .Unlimited) ∧
    (∀ n, a.allowance = some n → 0 < n → a.get_action_allowance = .Limited n) := by
  refine ⟨?_, ?_, ?_⟩
  · intro h; simp [SerializableAction.get_action_allowance, h]
  · intro h; simp [SerializableAction.get_action_allowance, h]
  · intro n h hn; simp [SerializableAction.get_action_allowance, h, hn]

/-- C3 witness: absent allowance and allowance 0 give Unlimited; an
allowance of 7 gives Limited(7). -/
theorem addkey_allowance_zero_means_unlimited_witness :
    SerializableAction.get_action_allowance { action_type := .AddKey } = .Unlimited ∧
    SerializableAction.get_action_allowance
      { action_type := .AddKey, allowance := some 0 } = .Unlimited ∧
    SerializableAction.get_action_allowance
      { action_type := .AddKey, allowance := some 7 } = .Limited 7 :=
  ⟨(addkey_allowance_zero_means_unlimited _).1 rfl,
   (addkey_allowance_zero_means_unlimited _).2.1 rfl,
   (addkey_allowance_zero_means_unlimited _).2.2 7 rfl (by decide)⟩

/-- C5: in the direct entry point the promise of a successful call
targets the signer's own account for CreateAccount, DeployContract,
Stake, AddKey, DeleteKey and DeleteAccount, and the descriptor's explicit
`receiver_id` for FunctionCall and Transfer. -/
theorem direct_target_resolution (st : State) (ctx : Ctx) (a : SerializableAction)
    (st2 : State) (p : Promise)
    (h : execute_direct_actions st ctx a = .ok (st2, p)) :
    ((a.action_type = .CreateAccount ∨ a.action_type = .DeployContract ∨
      a.action_type = .Stake ∨ a.action_type = .AddKey ∨
      a.action_type = .DeleteKey ∨ a.action_type = .DeleteAccount) →
      p.target = ctx.signer_account_id) ∧
    ((a.action_type = .FunctionCall ∨ a.action_type = .Transfer) →
      a.receiver_id = some p.target) := by
  by_cases hm : ctx.signer_account_pk ∈ st.registered_passkey_pks
  · rw [execute_direct_actions, if_pos hm] at h
    cases hd : direct_dispatch ctx.signer_account_id a with
    | error e => rw [hd] at h; simp [Except.map] at h
    | ok q =>
        rw [hd] at h
        simp [Except.map] at h
        obtain ⟨hst, hq⟩ := h
        subst hq
        have ht := (direct_dispatch_ok ctx.signer_account_id a _ hd).1
        obtain ⟨ty, rid, _, _, _, _, _, _, _, _, _, _, _, _, _⟩ := a
        cases ty <;> cases rid <;> simp [direct_target] at ht ⊢ <;> simp [ht]
  · rw [execute_direct_actions, if_neg hm] at h
    simp at h

/-- C5 witness: a direct DeployContract targets the signer `derp`, and a
direct Transfer targets the explicit receiver `x.near`. -/
theorem direct_target_resolution_witness :
    (Promise.target { target := "derp", actions := [.deployContract []] } =
      ctxDerp.signer_account_id) ∧
    transfer100.receiver_id =
      some (Promise.target { target := "x.near", actions := [.transfer 100] }) := by
  constructor
  · exact (direct_target_resolution stAB ctxDerp deployBare stAB
      { target := "derp", actions := [.deployContract []] } (by decide)).1
      (Or.inr (Or.inl rfl))
  · exact (direct_target_resolution stAB ctxDerp transfer100 stAB
      { target := "x.near", actions := [.transfer 100] } (by decide)).2
      (Or.inr rfl)

/-- C10: a successful call to either execution entry point leaves the
persisted contract state - credential registry, trusted-relayer id and
owner id - exactly as it was; only a promise is produced. -/
theorem execution_preserves_state (st : State) (ctx : Ctx) (pk : PublicKey)
    (a : SerializableAction) (st2 : State) (p : Promise) :
    (execute_direct_actions st ctx a = .ok (st2, p) →
      st2.registered_passkey_pks = st.registered_passkey_pks ∧
      st2.trusted_relayer_account_id = st.trusted_relayer_account_id ∧
      st2.owner_id = st.owner_id) ∧
    (execute_delegated_actions st ctx pk a = .ok (st2, p) →
      st2.registered_passkey_pks = st.registered_passkey_pks ∧
      st2.trusted_relayer_account_id = st.trusted_relayer_account_id ∧
      st2.owner_id = st.owner_id) := by
  constructor
  · intro h
    by_cases hm : ctx.signer_account_pk ∈ st.registered_passkey_pks
    · rw [execute_direct_actions, if_pos hm] at h
      cases hd : direct_dispatch ctx.signer_account_id a with
      | error e => rw [hd] at h; simp [Except.map] at h
      | ok q =>
          rw [hd] at h
          simp [Except.map] at h
          obtain ⟨hst, _⟩ := h
          rw [← hst]
          exact ⟨rfl, rfl, rfl⟩
    · rw [execute_direct_actions, if_neg hm] at h
      simp at h
  · intro h
    by_cases hr : ctx.predecessor_account_id = st.trusted_relayer_account_id
    · rw [execute_delegated_actions, if_pos hr] at h
      by_cases hpk : pk ∈ st.registered_passkey_pks
      · rw [if_pos hpk] at h
        cases hd : delegated_dispatch ctx.current_account_id a with
        | error e => rw [hd] at h; simp [Except.map] at h
        | ok q =>
            rw [hd] at h
            simp [Except.map] at h
            obtain ⟨hst, _⟩ := h
            rw [← hst]
            exact ⟨rfl, rfl, rfl⟩
      · rw [if_neg hpk] at h
        simp at h
    · rw [execute_delegated_actions, if_neg hr] at h
      simp at h

/-- C10 witness: the relayer-submitted Transfer of 100 to `x.near` with
registered passkey `pkA` succeeds and returns the state with registry,
relayer id and owner id untouched. -/
theorem execution_preserves_state_witness :
    stAB.registered_passkey_pks = stAB.registered_passkey_pks ∧
    stAB.trusted_relayer_account_id = stAB.trusted_relayer_account_id ∧
    stAB.owner_id = stAB.owner_id :=
  (execution_preserves_state stAB ctxRelayer "pkA" transfer100 stAB
    { target := "x.near", actions := [.transfer 100] }).2 (by decide)

/-- C9: registry boolean algebra under the relayer caller - adding a
credential returns true iff it was absent (so a second add returns
false), removing returns true iff it was present, after an add the
credential is registered and after a subsequent remove it is not. -/
theorem credential_registry_algebra (st : State) (ctx : Ctx) (k : PublicKey)
    (hnd : st.registered_passkey_pks.Nodup)
    (hR : ctx.predecessor_account_id = st.trusted_relayer_account_id) :
    (∀ st1 b1, add_passkey_pk st ctx k = .ok (st1, b1) →
      (b1 = true ↔ k ∉ st.registered_passkey_pks) ∧
      is_passkey_pk_registered st1 k = true ∧
      (∀ st2 b2, add_passkey_pk st1 ctx k = .ok (st2, b2) → b2 = false) ∧
      (∀ st3 b3, remove_passkey_pk st1 ctx k = .ok (st3, b3) →
        b3 = true ∧ is_passkey_pk_registered st3 k = false)) ∧
    (∀ st4 b4, remove_passkey_pk st ctx k = .ok (st4, b4) →
      (b4 = true ↔ k ∈ st.registered_passkey_pks)) := by
  constructor
  · intro st1 b1 hadd
    rw [add_passkey_pk, if_pos hR] at hadd
    simp at hadd
    obtain ⟨h1, h2⟩ := hadd
    subst h1; subst h2
    have hR1 : ctx.predecessor_account_id =
        ({ st with registered_passkey_pks :=
            (setInsert st.registered_passkey_pks k).1 } : State).trusted_relayer_account_id := hR
    by_cases hk : k ∈ st.registered_passkey_pks
    · refine ⟨?_, ?_, ?_, ?_⟩
      · simp [setInsert, hk]
      · simp [is_passkey_pk_registered, setInsert, hk]
      · intro st2 b2 hadd2
        rw [add_passkey_pk, if_pos hR1] at hadd2
        simp at hadd2
        simp [← hadd2.2, setInsert, hk]
      · intro st3 b3 hrem
        rw [remove_passkey_pk, if_pos hR1] at hrem
        simp at hrem
        obtain ⟨h3, h4⟩ := hrem
        subst h3; subst h4
        refine ⟨by simp [setInsert, setRemove, hk], ?_⟩
        simp [is_passkey_pk_registered, setInsert, setRemove, hk]
        exact hnd.not_mem_erase
    · refine ⟨?_, ?_, ?_, ?_⟩
      · simp [setInsert, hk]
      · simp [is_passkey_pk_registered, setInsert, hk]
      · intro st2 b2 hadd2
        rw [add_passkey_pk, if_pos hR1] at hadd2
        simp at hadd2
        simp [← hadd2.2, setInsert, hk]
      · intro st3 b3 hrem
        rw [remove_passkey_pk, if_pos hR1] at hrem
        simp at hrem
        obtain ⟨h3, h4⟩ := hrem
        subst h3; subst h4
        have hnd2 : ((setInsert st.registered_passkey_pks k).1).Nodup := by
          simp [setInsert, hk, List.nodup_append, hnd]
        refine ⟨by simp [setInsert, setRemove, hk], ?_⟩
        simp only [is_passkey_pk_registered, setRemove]
        have hmem : k ∈ (setInsert st.registered_passkey_pks k).1 := by
          simp [setInsert, hk]
        simp [hmem]
        exact hnd2.not_mem_erase
  · intro st4 b4 hrem
    rw [remove_passkey_pk, if_pos hR] at hrem
    simp at hrem
    obtain ⟨h5, h6⟩ := hrem
    subst h6
    by_cases hk : k ∈ st.registered_passkey_pks <;> simp [setRemove, hk]

/-- C9 witness: at a concrete registry containing `pkA` and `pkB`, adding
the fresh credential `pkC` registers it and a subsequent remove
deregisters it. -/
theorem credential_registry_algebra_witness :
    is_passkey_pk_registered
      { stAB with registered_passkey_pks := ["pkA", "pkB", "pkC"] } "pkC" = true ∧
    is_passkey_pk_registered
      { stAB with registered_passkey_pks := ["pkA", "pkB"] } "pkC" = false := by
  have h := credential_registry_algebra stAB ctxRelayer "pkC" (by decide) rfl
  have h1 := h.1 { stAB with registered_passkey_pks := ["pkA", "pkB", "pkC"] } true (by decide)
  have h2 := h1.2.2.2 { stAB with registered_passkey_pks := ["pkA", "pkB"] } true (by decide)
  exact ⟨h1.2.1, h2.2⟩

/-- C6 counterexample: a Transfer whose amount is present but equal to 0
passes validation in both entry points and schedules a transfer of 0,
contrary to the claim that it fails validation and schedules nothing. -/
theorem transfer_zero_accepted :
    execute_delegated_actions stAB ctxRelayer "pkA" transfer0 =
      .ok (stAB, { target := "x.near", actions := [.transfer 0] }) ∧
    execute_direct_actions stAB ctxDerp transfer0 =
      .ok (stAB, { target := "x.near", actions := [.transfer 0] }) := by decide

/-- C6 amended: a Transfer requires its target account id and its amount
field to be present, in both entry points; the amount is not required to
be positive - any present amount m, including 0, passes validation and
schedules a transfer of m to the explicit target. -/
theorem transfer_validation_requires_fields (st : State) (ctx : Ctx)
    (pk : PublicKey) (a : SerializableAction)
    (hty : a.action_type = .Transfer)
    (hsig : ctx.signer_account_pk ∈ st.registered_passkey_pks)
    (hrel : ctx.predecessor_account_id = st.trusted_relayer_account_id)
    (hpk : pk ∈ st.registered_passkey_pks) :
    (a.receiver_id = none →
      execute_direct_actions st ctx a =
        .error (.MissingFieldError "receiver_id is required for FunctionCall/Transfer") ∧
      execute_delegated_actions st ctx pk a =
        .error (.MissingFieldError "receiver_id is required for FunctionCall/Transfer")) ∧
    (∀ r, a.receiver_id = some r → a.amount = none →
      execute_direct_actions st ctx a =
        .error (.MissingFieldError "amount is required for Transfer") ∧
      execute_delegated_actions st ctx pk a =
        .error (.MissingFieldError "amount is required for Transfer")) ∧
    (∀ r m, a.receiver_id = some r → a.amount = some m →
      execute_direct_actions st ctx a = .ok (st, { target := r, actions := [.transfer m] }) ∧
      execute_delegated_actions st ctx pk a =
        .ok (st, { target := r, actions := [.transfer m] })) := by
  obtain ⟨ty, rid, mn, ar, dep, gs, amt, pk2, alw, mns, cd, stk, ben, idep, pkn⟩ := a
  cases hty
  refine ⟨?_, ?_, ?_⟩
  · intro hrid
    cases hrid
    constructor
    · rw [execute_direct_actions, if_pos hsig]
      simp [direct_dispatch, direct_target, Except.map]
    · rw [execute_delegated_actions, if_pos hrel, if_pos hpk]
      simp [delegated_dispatch, delegated_target, Except.map]
  · intro r hrid hamt
    cases hrid
    cases hamt
    constructor
    · rw [execute_direct_actions, if_pos hsig]
      simp [direct_dispatch, direct_target, direct_promise_actions, Except.map]
    · rw [execute_delegated_actions, if_pos hrel, if_pos hpk]
      simp [delegated_dispatch, delegated_target, delegated_promise_actions, Except.map]
  · intro r m hrid hamt
    cases hrid
    cases hamt
    constructor
    · rw [execute_direct_actions, if_pos hsig]
      simp [direct_dispatch, direct_target, direct_promise_actions, Except.map]
    · rw [execute_delegated_actions, if_pos hrel, if_pos hpk]
      simp [delegated_dispatch, delegated_target, delegated_promise_actions, Except.map]

/-- C6 amended witness: a Transfer missing its amount fails in both
entry points, and a Transfer with amount 100 succeeds in both. -/
theorem transfer_validation_requires_fields_witness :
    (execute_direct_actions stAB ctxBoth transferNoAmount =
      .error (.MissingFieldError "amount is required for Transfer") ∧
     execute_delegated_actions stAB ctxBoth "pkA" transferNoAmount =
      .error (.MissingFieldError "amount is required for Transfer")) ∧
    (execute_direct_actions stAB ctxBoth transfer100 =
      .ok (stAB, { target := "x.near", actions := [.transfer 100] }) ∧
     execute_delegated_actions stAB ctxBoth "pkA" transfer100 =
      .ok (stAB, { target := "x.near", actions := [.transfer 100] })) := by
  have h1 := transfer_validation_requires_fields stAB ctxBoth "pkA" transferNoAmount
    rfl (by decide) rfl (by decide)
  have h2 := transfer_validation_requires_fields stAB ctxBoth "pkA" transfer100
    rfl (by decide) rfl (by decide)
  exact ⟨h1.2.1 "x.near" rfl rfl, h2.2.2 "x.near" 100 rfl rfl⟩

/-- C7 counterexample: a FunctionCall with absent method name and absent
argument bytes, and a DeployContract with absent code bytes, do NOT fail
with a MissingFieldError - both entry points accept them, defaulting the
method name to the empty string, the arguments to empty bytes and the
code to empty bytes. -/
theorem absent_call_fields_accepted :
    execute_direct_actions stAB ctxDerp fcallBare =
      .ok (stAB, { target := "x.near", actions := [.functionCall "" [] 0 5000000000000] }) ∧
    execute_delegated_actions stAB ctxRelayer "pkA" fcallBare =
      .ok (stAB, { target := "x.near", actions := [.functionCall "" [] 0 0] }) ∧
    execute_direct_actions stAB ctxDerp deployBare =
      .ok (stAB, { target := "derp", actions := [.deployContract []] }) ∧
    execute_delegated_actions stAB ctxRelayer "pkA" deployBare =
      .ok (stAB, { target := "contract", actions := [.deployContract []] }) := by decide

/-- C7 amended: method name, argument bytes and code bytes are optional,
not required - a FunctionCall with the method-name field absent or the
argument-bytes field absent passes validation in both entry points, with
whichever field is absent substituted by its default (empty string for
the method name, empty bytes for the arguments), and a DeployContract
with an absent code-bytes field passes validation deploying empty code;
only FunctionCall's `receiver_id` is a required field among these
kinds. -/
theorem absent_call_fields_default (st : State) (ctx : Ctx)
    (pk : PublicKey) (a : SerializableAction) (r : AccountId)
    (hsig : ctx.signer_account_pk ∈ st.registered_passkey_pks)
    (hrel : ctx.predecessor_account_id = st.trusted_relayer_account_id)
    (hpk : pk ∈ st.registered_passkey_pks) :
    (a.action_type = .FunctionCall → a.receiver_id = some r →
     (a.method_name = none ∨ a.args = none) →
      execute_direct_actions st ctx a =
        .ok (st, ⟨r, [.functionCall (a.method_name.getD "") (a.args.getD [])
                       (a.deposit.getD 0) (a.gas.getD 5000000000000)]⟩) ∧
      execute_delegated_actions st ctx pk a =
        .ok (st, ⟨r, [.functionCall (a.method_name.getD "") (a.args.getD [])
                       (a.deposit.getD 0) (a.gas.getD 0)]⟩)) ∧
    (a.action_type = .DeployContract → a.code = none →
      execute_direct_actions st ctx a =
        .ok (st, { target := ctx.signer_account_id, actions := [.deployContract []] }) ∧
      execute_delegated_actions st ctx pk a =
        .ok (st, { target := ctx.current_account_id, actions := [.deployContract []] })) := by
  obtain ⟨ty, rid, mn, ar, dep, gs, amt, pk2, alw, mns, cd, stk, ben, idep, pkn⟩ := a
  constructor
  · intro hty hrid _
    cases hty; cases hrid
    constructor
    · rw [execute_direct_actions, if_pos hsig]
      simp [direct_dispatch, direct_target, direct_promise_actions, Except.map]
    · rw [execute_delegated_actions, if_pos hrel, if_pos hpk]
      simp [delegated_dispatch, delegated_target, delegated_promise_actions, Except.map]
  · intro hty hcd
    cases hty; cases hcd
    constructor
    · rw [execute_direct_actions, if_pos hsig]
      simp [direct_dispatch, direct_target, direct_promise_actions, Except.map]
    · rw [execute_delegated_actions, if_pos hrel, if_pos hpk]
      simp [delegated_dispatch, delegated_target, delegated_promise_actions, Except.map]

/-- C7 amended witness: the bare FunctionCall (method name and arguments
both absent), the FunctionCall with a method name but absent arguments,
and the bare DeployContract all succeed in both entry points with the
absent fields defaulted. -/
theorem absent_call_fields_default_witness :
    (execute_direct_actions stAB ctxBoth fcallBare =
      .ok (stAB, { target := "x.near", actions := [.functionCall "" [] 0 5000000000000] }) ∧
     execute_delegated_actions stAB ctxBoth "pkA" fcallBare =
      .ok (stAB, { target := "x.near", actions := [.functionCall "" [] 0 0] })) ∧
    (execute_direct_actions stAB ctxBoth fcallNoArgs =
      .ok (stAB, { target := "x.near", actions := [.functionCall "m" [] 0 5000000000000] }) ∧
     execute_delegated_actions stAB ctxBoth "pkA" fcallNoArgs =
      .ok (stAB, { target := "x.near", actions := [.functionCall "m" [] 0 0] })) ∧
    (execute_direct_actions stAB ctxBoth deployBare =
      .ok (stAB, { target := ctxBoth.signer_account_id, actions := [.deployContract []] }) ∧
     execute_delegated_actions stAB ctxBoth "pkA" deployBare =
      .ok (stAB, { target := ctxBoth.current_account_id, actions := [.deployContract []] })) := by
  have h := absent_call_fields_default stAB ctxBoth "pkA" fcallBare "x.near"
    (by decide) rfl (by decide)
  have h2 := absent_call_fields_default stAB ctxBoth "pkA" fcallNoArgs "x.near"
    (by decide) rfl (by decide)
  have h3 := absent_call_fields_default stAB ctxBoth "pkA" deployBare "x.near"
    (by decide) rfl (by decide)
  exact ⟨h.1 rfl rfl (Or.inl rfl), h2.1 rfl rfl (Or.inr rfl), h3.2 rfl rfl⟩

/-- C8 counterexample: in the direct entry point a FunctionCall with an
absent compute-budget (gas) field is emitted with gas 5000000000000
(5 TGas), not 0 as the claim states for both entry points. -/
theorem direct_gas_default_not_zero :
    execute_direct_actions stAB ctxDerp fcallBare =
      .ok (stAB, { target := "x.near", actions := [.functionCall "" [] 0 5000000000000] }) ∧
    (5000000000000 : Nat) ≠ 0 := by decide

/-- C8 amended: for a FunctionCall whose deposit field is absent the
emitted deposit is 0 in both entry points; for an absent gas field the
emitted compute budget is 0 in the delegated entry point but
5000000000000 (5 TGas) in the direct entry point. -/
theorem functioncall_deposit_gas_defaults (st : State) (ctx : Ctx)
    (pk : PublicKey) (a : SerializableAction) (r : AccountId)
    (hty : a.action_type = .FunctionCall)
    (hrid : a.receiver_id = some r)
    (hsig : ctx.signer_account_pk ∈ st.registered_passkey_pks)
    (hrel : ctx.predecessor_account_id = st.trusted_relayer_account_id)
    (hpk : pk ∈ st.registered_passkey_pks) :
    (a.deposit = none →
      execute_direct_actions st ctx a =
        .ok (st, ⟨r, [.functionCall (a.method_name.getD "") (a.args.getD []) 0
                       (a.gas.getD 5000000000000)]⟩) ∧
      execute_delegated_actions st ctx pk a =
        .ok (st, ⟨r, [.functionCall (a.method_name.getD "") (a.args.getD []) 0
                       (a.gas.getD 0)]⟩)) ∧
    (a.gas = none →
      execute_direct_actions st ctx a =
        .ok (st, ⟨r, [.functionCall (a.method_name.getD "") (a.args.getD [])
                       (a.deposit.getD 0) 5000000000000]⟩) ∧
      execute_delegated_actions st ctx pk a =
        .ok (st, ⟨r, [.functionCall (a.method_name.getD "") (a.args.getD [])
                       (a.deposit.getD 0) 0]⟩)) := by
  obtain ⟨ty, rid, mn, ar, dep, gs, amt, pk2, alw, mns, cd, stk, ben, idep, pkn⟩ := a
  cases hty; cases hrid
  constructor
  · intro hdep
    cases hdep
    constructor
    · rw [execute_direct_actions, if_pos hsig]
      simp [direct_dispatch, direct_target, direct_promise_actions, Except.map]
    · rw [execute_delegated_actions, if_pos hrel, if_pos hpk]
      simp [delegated_dispatch, delegated_target, delegated_promise_actions, Except.map]
  · intro hgas
    cases hgas
    constructor
    · rw [execute_direct_actions, if_pos hsig]
      simp [direct_dispatch, direct_target, direct_promise_actions, Except.map]
    · rw [execute_delegated_actions, if_pos hrel, if_pos hpk]
      simp [delegated_dispatch, delegated_target, delegated_promise_actions, Except.map]

/-- C8 amended witness: the bare FunctionCall descriptor (deposit and
gas both absent) gets deposit 0 in both entry points with gas 5 TGas
direct and 0 delegated, and the FunctionCall carrying a deposit of 5 but
no gas field keeps its deposit while getting the same per-entry-point
gas defaults. -/
theorem functioncall_deposit_gas_defaults_witness :
    (execute_direct_actions stAB ctxBoth fcallBare =
      .ok (stAB, { target := "x.near", actions := [.functionCall "" [] 0 5000000000000] }) ∧
     execute_delegated_actions stAB ctxBoth "pkA" fcallBare =
      .ok (stAB, { target := "x.near", actions := [.functionCall "" [] 0 0] })) ∧
    (execute_direct_actions stAB ctxBoth fcallDeposit5 =
      .ok (stAB, { target := "x.near", actions := [.functionCall "" [] 5 5000000000000] }) ∧
     execute_delegated_actions stAB ctxBoth "pkA" fcallDeposit5 =
      .ok (stAB, { target := "x.near", actions := [.functionCall "" [] 5 0] })) := by
  have h1 := functioncall_deposit_gas_defaults stAB ctxBoth "pkA" fcallBare "x.near"
    rfl rfl (by decide) rfl (by decide)
  have h2 := functioncall_deposit_gas_defaults stAB ctxBoth "pkA" fcallDeposit5 "x.near"
    rfl rfl (by decide) rfl (by decide)
  exact ⟨h1.1 rfl, h2.2 rfl⟩

/-- If any descriptor of the list fails to dispatch, the all-or-nothing
sequencing fails as a whole, yielding no promise list at all. -/
theorem dispatchAll_error_of_mem (f : SerializableAction → Except ExecError Promise)
    (l : List SerializableAction) (a : SerializableAction) (e : ExecError)
    (ha : a ∈ l) (hf : f a = .error e) :
    isError (dispatchAll f l) = true := by
  induction l with
  | nil => cases ha
  | cons x xs ih =>
      rcases List.mem_cons.mp ha with h | h
      · subst h
        simp [dispatchAll, hf, isError]
      · cases hfx : f x with
        | error e1 => simp [dispatchAll, hfx, isError]
        | ok p =>
            have hxs := ih h
            cases hall : dispatchAll f xs with
            | error e2 => simp [dispatchAll, hfx, hall, isError]
            | ok ps => rw [hall] at hxs; simp [isError] at hxs

/-- C4: the relayer-delegated batch entry point accepts one or many
descriptors; a batch of one agrees with the single-descriptor entry point
of the code, and if any descriptor of the batch fails validation the
entire call errors, so no operation scheduled earlier in the same call
survives. -/
theorem delegated_batch_all_or_nothing (st : State) (ctx : Ctx) (pk : PublicKey)
    (descs : List SerializableAction) (a : SerializableAction) (e : ExecError)
    (hrel : ctx.predecessor_account_id = st.trusted_relayer_account_id)
    (hpk : pk ∈ st.registered_passkey_pks)
    (hmem : a ∈ descs)
    (hfail : delegated_dispatch ctx.current_account_id a = .error e) :
    isError (execute_delegated_actions_batch st ctx pk descs) = true ∧
    (∀ a2, execute_delegated_actions_batch st ctx pk [a2] =
      (execute_delegated_actions st ctx pk a2).map (fun sp => (sp.1, [sp.2]))) := by
  constructor
  · rw [execute_delegated_actions_batch, if_pos hrel, if_pos hpk]
    have h := dispatchAll_error_of_mem _ descs a e hmem hfail
    cases hall : dispatchAll (delegated_dispatch ctx.current_account_id) descs with
    | error e2 => simp [Except.map, isError]
    | ok ps => rw [hall] at h; simp [isError] at h
  · intro a2
    rw [execute_delegated_actions_batch, if_pos hrel, if_pos hpk,
      execute_delegated_actions, if_pos hrel, if_pos hpk]
    cases hd : delegated_dispatch ctx.current_account_id a2 with
    | error e2 => simp [dispatchAll, hd, Except.map]
    | ok p => simp [dispatchAll, hd, Except.map]

/-- C4 witness: a two-descriptor batch whose second descriptor is a
Transfer missing its amount fails as a whole, and a singleton batch
agrees with the code's single-descriptor entry point. -/
theorem delegated_batch_all_or_nothing_witness :
    isError (execute_delegated_actions_batch stAB ctxRelayer "pkA"
      [transfer100, transferNoAmount]) = true ∧
    execute_delegated_actions_batch stAB ctxRelayer "pkA" [transfer100] =
      (execute_delegated_actions stAB ctxRelayer "pkA" transfer100).map
        (fun sp => (sp.1, [sp.2])) := by
  have h := delegated_batch_all_or_nothing stAB ctxRelayer "pkA"
    [transfer100, transferNoAmount] transferNoAmount
    (.MissingFieldError "amount is required for Transfer")
    rfl (by decide) (by decide) (by decide)
  exact ⟨h.1, h.2 transfer100⟩

end PasskeyController
